import Mathlib

/-!
Verification of the reliability core of the data-enrichment API
(`src/enrichment_api/{llm,tools,billing,main}.py`): retry/backoff policy,
error classification, model fallback chain, timeout budget, webhook and
checkout idempotency, and batch-endpoint error isolation.

Python string primitives used by the source (`str.strip`, `str.split`,
`str.lower`, the `in` substring test, truthiness of `str | None`, and
`a or b` on strings) are embedded below as structurally recursive
functions so every definition is executable by the kernel.
-/

/-- Python `str.strip()`: drop leading and trailing whitespace. -/
def pyStrip (s : String) : String :=
  ⟨((s.data.dropWhile Char.isWhitespace).reverse.dropWhile Char.isWhitespace).reverse⟩

/-- Auxiliary for `splitOnChar`, accumulating the current field in reverse. -/
def splitOnCharAux (sep : Char) : List Char → List Char → List String
  | [], acc => [⟨acc.reverse⟩]
  | c :: cs, acc =>
    if c = sep then ⟨acc.reverse⟩ :: splitOnCharAux sep cs []
    else splitOnCharAux sep cs (c :: acc)

/-- Python `str.split(sep)` for a one-character separator (keeps empty fields). -/
def splitOnChar (sep : Char) (s : String) : List String :=
  splitOnCharAux sep s.data []

/-- Python `str.lower()` (ASCII case folding, as used on provider messages). -/
def strLower (s : String) : String := ⟨s.data.map Char.toLower⟩

/-- Whether the first list is an initial segment of the second. -/
def leadsWith : List Char → List Char → Bool
  | [], _ => true
  | _ :: _, [] => false
  | a :: as, b :: bs => a = b && leadsWith as bs

/-- Whether `needle` occurs contiguously inside the list. -/
def occursIn (needle : List Char) : List Char → Bool
  | [] => needle.isEmpty
  | c :: rest => leadsWith needle (c :: rest) || occursIn needle rest

/-- Python `sub in s` substring test. -/
def strContains (s sub : String) : Bool := occursIn sub.data s.data

/-- Python truthiness of an optional string: `None` and `""` are falsy. -/
def pyTruthy : Option String → Bool
  | none => false
  | some s => s ≠ ""

/-- Python `a or b` on optional strings: `a` if truthy, else `b`. -/
def pyOrStr (a b : Option String) : Option String :=
  if pyTruthy a then a else b

namespace Llm

/-! ### `src/enrichment_api/llm.py` — constants and error classifier -/

/-- `LLM_BACKOFF_BASE_SECONDS` (env default `"1.0"`), as an exact rational. -/
def LLM_BACKOFF_BASE_SECONDS : ℚ := 1

/-- `LLM_BACKOFF_JITTER_SECONDS` (env default `"0.6"`), as an exact rational. -/
def LLM_BACKOFF_JITTER_SECONDS : ℚ := 3 / 5

/-- `RETRYABLE_STATUS_CODES` from `llm.py`. -/
def RETRYABLE_STATUS_CODES : List ℕ := [408, 409, 425, 429, 500, 502, 503, 504, 529]

/-- `_retry_delay_seconds(attempt_number)` from `llm.py`; the call
`random.uniform(0, LLM_BACKOFF_JITTER_SECONDS)` is modelled by the explicit
draw `jitter_draw`. -/
def _retry_delay_seconds (jitter_draw : ℚ) (attempt_number : ℕ) : ℚ :=
  LLM_BACKOFF_BASE_SECONDS * 2 ^ (attempt_number - 1) + jitter_draw

/-- Exceptions that `_call_llm_with_fallback` may see from one attempt.
Each constructor stands for the dynamic exception class that the
corresponding `isinstance` branch of `_is_retryable_llm_error` matches;
`otherExc` covers every remaining `Exception`. -/
inductive LlmError
  | apiTimeoutError
  | apiConnectionError
  | rateLimitError
  | internalServerError
  | apiStatusError (status_code : ℕ)
  | instructorRetry (message : String)
  | otherExc (name : String)
deriving DecidableEq

/-- `_is_retryable_llm_error(exc)` from `llm.py`. -/
def _is_retryable_llm_error : LlmError → Bool
  | .apiTimeoutError => true
  | .apiConnectionError => true
  | .rateLimitError => true
  | .internalServerError => true
  | .apiStatusError status_code => decide (status_code ∈ RETRYABLE_STATUS_CODES)
  | .instructorRetry message =>
    strContains (strLower message) "overloaded" ||
      strContains (strLower message) "rate limit" ||
      strContains (strLower message) "error code: 529"
  | .otherExc _ => false

/-- Modelled from the spec (§4.2 and claim C5): the set of exceptions the spec
declares retryable for the model provider, written from the spec's words, to
be compared with the source classifier `_is_retryable_llm_error`. -/
def SpecRetryableLlm : LlmError → Prop
  | .apiTimeoutError => True
  | .apiConnectionError => True
  | .rateLimitError => True
  | .internalServerError => True
  | .apiStatusError status_code =>
    status_code ∈ ([408, 409, 425, 429, 500, 502, 503, 504, 529] : List ℕ)
  | .instructorRetry message =>
    strContains (strLower message) "overloaded" = true ∨
      strContains (strLower message) "rate limit" = true ∨
      strContains (strLower message) "error code: 529" = true
  | .otherExc _ => False

/-! ### `_model_chain` -/

/-- `_model_chain()` from `llm.py`, with the two environment values
`ANTHROPIC_MODEL` and `ANTHROPIC_FALLBACK_MODELS` passed explicitly. -/
def _model_chain (anthropic_model_env anthropic_fallback_models_env : String) : List String :=
  let primary := pyStrip anthropic_model_env
  let fallbacks :=
    ((splitOnChar ',' anthropic_fallback_models_env).map pyStrip).filter (fun m => m ≠ "")
  (primary :: fallbacks).foldl
    (fun chain model => if model ≠ "" ∧ model ∉ chain then chain ++ [model] else chain) []

/-- Modelled from the spec (claim C7): keep the first occurrence of each
non-empty entry not already seen, preserving order. `seen` is the set of
entries already emitted. -/
def firstSeenKeep (seen : List String) : List String → List String
  | [] => []
  | m :: rest =>
    if m ≠ "" ∧ m ∉ seen then m :: firstSeenKeep (seen ++ [m]) rest
    else firstSeenKeep seen rest

/-- The candidate list `[primary, *fallbacks]` that `_model_chain` folds over. -/
def chainCandidates (anthropic_model_env anthropic_fallback_models_env : String) : List String :=
  pyStrip anthropic_model_env ::
    ((splitOnChar ',' anthropic_fallback_models_env).map pyStrip).filter (fun m => m ≠ "")

/-! ### `_call_llm_with_fallback` — retry loop and model failover chain

The `async` call at `llm.py:106-114` is modelled by an oracle giving, for each
model and 1-indexed attempt number, the outcome of that attempt: a value, a
caller cancellation (`asyncio.CancelledError`), an expiry of the per-call
`asyncio.timeout` scope (`asyncio.TimeoutError`), or a raised provider
exception. The orchestrator is a pure function of this oracle that also
returns the trace of provider calls and backoff sleeps it performed. -/

/-- Outcome of one `client.chat.completions.create` attempt under its
per-call timeout scope. -/
inductive AttemptOutcome (α : Type)
  | success (v : α)
  | cancelled
  | timedOut
  | raises (e : LlmError)
deriving DecidableEq

/-- The exception stored in `last_error` by the retry loop. -/
inductive StoredExc
  | llmExc (e : LlmError)
  | asyncTimeoutExc
deriving DecidableEq

/-- Events of the per-model retry loop: a provider call at a given attempt
number, or an `asyncio.sleep(_retry_delay_seconds(attempt))` backoff. -/
inductive LoopEv
  | call (attempt : ℕ)
  | backoff (attempt : ℕ)
deriving DecidableEq

/-- Result of the inner `for attempt in range(1, LLM_RETRY_ATTEMPTS + 1)` loop
for one model: a returned value, a re-raised cancellation, an immediately
re-raised non-retryable error, or normal loop exhaustion (advance to the next
model) carrying the updated `last_error`. -/
inductive ModelLoopResult (α : Type)
  | success (v : α)
  | cancelled
  | fatal (e : LlmError)
  | exhausted (last : Option StoredExc)
deriving DecidableEq

/-- The per-model retry loop of `_call_llm_with_fallback` (`llm.py:104-128`),
run over the list of remaining attempt numbers. `o a` is the outcome of the
attempt numbered `a`; `last` is the current `last_error`. -/
def runAttempts {α : Type} (o : ℕ → AttemptOutcome α) :
    List ℕ → Option StoredExc → ModelLoopResult α × List LoopEv
  | [], last => (.exhausted last, [])
  | a :: rest, _last =>
    match o a with
    | .success v => (.success v, [.call a])
    | .cancelled => (.cancelled, [.call a])
    | .timedOut =>
      if rest.isEmpty then (.exhausted (some .asyncTimeoutExc), [.call a])
      else
        let r := runAttempts o rest (some .asyncTimeoutExc)
        (r.1, .call a :: .backoff a :: r.2)
    | .raises e =>
      if _is_retryable_llm_error e then
        if rest.isEmpty then (.exhausted (some (.llmExc e)), [.call a])
        else
          let r := runAttempts o rest (some (.llmExc e))
          (r.1, .call a :: .backoff a :: r.2)
      else (.fatal e, [.call a])

/-- Trace events of the whole chain: loop events tagged with the model. -/
inductive ChainEv
  | call (model : String) (attempt : ℕ)
  | backoff (model : String) (attempt : ℕ)
deriving DecidableEq

/-- Tag a loop event with its model. -/
def tagModel (m : String) : LoopEv → ChainEv
  | .call a => .call m a
  | .backoff a => .backoff m a

/-- Result of `_call_llm_with_fallback`: a value, a re-raised cancellation, a
re-raised non-retryable provider error, or `UpstreamServiceUnavailableError`
raised `from last_error` after the chain is exhausted. -/
inductive CallResult (α : Type)
  | ok (v : α)
  | cancelled
  | fatal (e : LlmError)
  | unavailable (last : Option StoredExc)
deriving DecidableEq

/-- The outer `for model in _model_chain()` loop of `_call_llm_with_fallback`
(`llm.py:103-136`), threading `last_error` between models. -/
def runChain {α : Type} (o : String → ℕ → AttemptOutcome α) (attempts : List ℕ) :
    List String → Option StoredExc → CallResult α × List ChainEv
  | [], last => (.unavailable last, [])
  | m :: ms, last =>
    match runAttempts (o m) attempts last with
    | (.success v, tr) => (.ok v, tr.map (tagModel m))
    | (.cancelled, tr) => (.cancelled, tr.map (tagModel m))
    | (.fatal e, tr) => (.fatal e, tr.map (tagModel m))
    | (.exhausted last', tr) =>
      ((runChain o attempts ms last').1,
        tr.map (tagModel m) ++ (runChain o attempts ms last').2)

/-- `_call_llm_with_fallback(client, user_message, system_prompt)` for a given
model chain and attempt budget, starting with `last_error = None` and attempt
numbers `1, ..., maxAttempts` per model. -/
def _call_llm_with_fallback {α : Type} (o : String → ℕ → AttemptOutcome α)
    (chain : List String) (maxAttempts : ℕ) : CallResult α × List ChainEv :=
  runChain o (List.range' 1 maxAttempts) chain none

/-! ### `enrich_data` — nested timeout budget (`llm.py:205-288`) -/

/-- Exceptions (other than timeout and cancellation) that the body of
`enrich_data` can let escape. -/
inductive PyError
  | upstreamServiceUnavailable (msg : String)
  | llmFatal (e : LlmError)
  | otherErr (name : String)
deriving DecidableEq

/-- Outcome of an awaited phase: a value, an `asyncio.CancelledError`
surfacing at the current point, an `asyncio.TimeoutError`, or another raised
exception. -/
inductive AsyncOutcome (α : Type)
  | ok (v : α)
  | cancelled
  | timeoutErr
  | raises (e : PyError)
deriving DecidableEq

/-- Semantics of exiting an `async with asyncio.timeout(...)` scope: the scope
converts a `CancelledError` into `TimeoutError` exactly when its own deadline
expired (it caused the cancellation); every other outcome passes through. -/
def asyncTimeoutScope {α : Type} (expired : Bool) (body : AsyncOutcome α) : AsyncOutcome α :=
  match expired, body with
  | true, .cancelled => .timeoutErr
  | _, b => b

/-- What `enrich_data` lets its caller observe. `raisesTimeoutErr` stands for
a raw `asyncio.TimeoutError` escaping to the caller. -/
inductive EnrichOutcome (α : Type)
  | ok (v : α)
  | cancelled
  | raisesTimeoutErr
  | enrichmentTimeoutError
  | raises (e : PyError)
deriving DecidableEq

/-- The `try ... except` boundary of `enrich_data` (`llm.py:215, 283-288`):
cancellation re-raises, `asyncio.TimeoutError` becomes
`EnrichmentTimeoutError`, everything else propagates. -/
def enrich_boundary {α : Type} : AsyncOutcome α → EnrichOutcome α
  | .ok v => .ok v
  | .cancelled => .cancelled
  | .timeoutErr => .enrichmentTimeoutError
  | .raises e => .raises e

/-- `enrich_data(request)` (`llm.py:205-288`): the search phase runs under the
inner `asyncio.timeout(SEARCH_CONTEXT_TIMEOUT_SECONDS)` scope, then the model
phase runs, all inside the outer
`asyncio.timeout(ENRICH_TOTAL_TIMEOUT_SECONDS)` scope and the boundary
handler. `search` is the outcome of `_gather_search_context`, `llm ctx` the
outcome of `_call_llm_with_fallback` on the gathered context; the two `ℕ`
components count how many times each phase was started. -/
def enrich_data {α : Type} (innerExpired outerExpired : Bool)
    (search : AsyncOutcome String) (llm : String → AsyncOutcome α) :
    EnrichOutcome α × ℕ × ℕ :=
  let s := asyncTimeoutScope innerExpired search
  let llmStep : AsyncOutcome α × ℕ :=
    match s with
    | .ok ctx => (llm ctx, 1)
    | .cancelled => (.cancelled, 0)
    | .timeoutErr => (.timeoutErr, 0)
    | .raises e => (.raises e, 0)
  (enrich_boundary (asyncTimeoutScope outerExpired llmStep.1), 1, llmStep.2)

end Llm

namespace Tools

/-! ### `src/enrichment_api/tools.py` — search-provider backoff -/

/-- `SERPER_BACKOFF_BASE_SECONDS` (env default `"0.75"`), as an exact rational. -/
def SERPER_BACKOFF_BASE_SECONDS : ℚ := 3 / 4

/-- `SERPER_BACKOFF_JITTER_SECONDS` (env default `"0.5"`), as an exact rational. -/
def SERPER_BACKOFF_JITTER_SECONDS : ℚ := 1 / 2

/-- `SERPER_RETRYABLE_STATUS_CODES` from `tools.py`. -/
def SERPER_RETRYABLE_STATUS_CODES : List ℕ := [408, 425, 429, 500, 502, 503, 504]

/-- `_retry_delay_seconds(attempt_number)` from `tools.py`; the call
`random.uniform(0, SERPER_BACKOFF_JITTER_SECONDS)` is modelled by the
explicit draw `jitter_draw`. -/
def _retry_delay_seconds (jitter_draw : ℚ) (attempt_number : ℕ) : ℚ :=
  SERPER_BACKOFF_BASE_SECONDS * 2 ^ (attempt_number - 1) + jitter_draw

end Tools

/-! ## Helper lemmas -/

lemma chain_foldl_eq (l : List String) :
    ∀ acc : List String,
      l.foldl (fun chain model =>
        if model ≠ "" ∧ model ∉ chain then chain ++ [model] else chain) acc =
      acc ++ Llm.firstSeenKeep acc l := by
  induction l with
  | nil => intro acc; simp [Llm.firstSeenKeep]
  | cons m rest ih =>
    intro acc
    by_cases h : m ≠ "" ∧ m ∉ acc
    · simp only [List.foldl_cons, Llm.firstSeenKeep, if_pos h, ih (acc ++ [m])]
      simp
    · simp only [List.foldl_cons, Llm.firstSeenKeep, if_neg h, ih acc]

lemma firstSeenKeep_nodup (l : List String) :
    ∀ seen : List String,
      (Llm.firstSeenKeep seen l).Nodup ∧ ∀ x ∈ Llm.firstSeenKeep seen l, x ∉ seen := by
  induction l with
  | nil => intro seen; simp [Llm.firstSeenKeep]
  | cons m rest ih =>
    intro seen
    by_cases h : m ≠ "" ∧ m ∉ seen
    · simp only [Llm.firstSeenKeep, if_pos h]
      obtain ⟨hnd, hmem⟩ := ih (seen ++ [m])
      refine ⟨List.nodup_cons.mpr ⟨fun hc => ?_, hnd⟩, ?_⟩
      · have := hmem m hc
        simp at this
      · intro x hx
        rcases List.mem_cons.mp hx with rfl | hx'
        · exact h.2
        · intro hxs
          exact hmem x hx' (by simp [hxs])
    · simp only [Llm.firstSeenKeep, if_neg h]
      exact ⟨(ih seen).1, (ih seen).2⟩

lemma model_chain_eq_firstSeen (p f : String) :
    Llm._model_chain p f = Llm.firstSeenKeep [] (Llm.chainCandidates p f) := by
  unfold Llm._model_chain Llm.chainCandidates
  simpa using chain_foldl_eq
    (pyStrip p :: ((splitOnChar ',' f).map pyStrip).filter (fun m => m ≠ "")) []

lemma runAttempts_trace_head {α : Type} (o : ℕ → Llm.AttemptOutcome α) (a : ℕ)
    (rest : List ℕ) (last : Option Llm.StoredExc) :
    ∃ t, (Llm.runAttempts o (a :: rest) last).2 = .call a :: t := by
  cases h : o a with
  | success v => exact ⟨[], by simp [Llm.runAttempts, h]⟩
  | cancelled => exact ⟨[], by simp [Llm.runAttempts, h]⟩
  | timedOut =>
    cases rest with
    | nil => exact ⟨[], by simp [Llm.runAttempts, h]⟩
    | cons b rs =>
      exact ⟨.backoff a :: (Llm.runAttempts o (b :: rs) (some .asyncTimeoutExc)).2,
        by simp [Llm.runAttempts, h]⟩
  | raises e =>
    by_cases hr : Llm._is_retryable_llm_error e
    · cases rest with
      | nil => exact ⟨[], by simp [Llm.runAttempts, h, hr]⟩
      | cons b rs =>
        exact ⟨.backoff a :: (Llm.runAttempts o (b :: rs) (some (.llmExc e))).2,
          by simp [Llm.runAttempts, h, hr]⟩
    · exact ⟨[], by simp [Llm.runAttempts, h, hr]⟩

lemma runChain_trace_head {α : Type} (o : String → ℕ → Llm.AttemptOutcome α)
    (a : ℕ) (as : List ℕ) (m : String) (ms : List String)
    (last : Option Llm.StoredExc) :
    ((Llm.runChain o (a :: as) (m :: ms) last).2).head? = some (.call m a) := by
  obtain ⟨t, ht⟩ := runAttempts_trace_head (o m) a as last
  rcases hr : Llm.runAttempts (o m) (a :: as) last with ⟨res, tr⟩
  have htr : tr = .call a :: t := by rw [hr] at ht; exact ht
  subst htr
  cases res <;> simp [Llm.runChain, hr, Llm.tagModel]

namespace Billing

/-! ### `src/enrichment_api/billing.py` — idempotency and webhook dedup

The in-process fallback path of the store is modelled (`_get_redis()` is
`None`); the `_memory_store` dict is an association list with unique keys,
and `datetime.utcnow()` is an explicit `now : ℕ` timestamp in seconds.
Dict insertion is modelled by prepending after removing the old binding. -/

/-- The `_memory_store` key `f"stripe:event:{event_id}"`. -/
def webhookEventKey (event_id : String) : String := "stripe:event:" ++ event_id

/-- `_is_webhook_event_processed(event_id)` (`billing.py:100-113`), memory
path: an entry past its `expires_at` is lazily evicted and reported absent.
Returns the flag and the store after any eviction. -/
def _is_webhook_event_processed (store : List (String × ℕ)) (now : ℕ)
    (event_id : String) : Bool × List (String × ℕ) :=
  let cache_key := webhookEventKey event_id
  match store.lookup cache_key with
  | none => (false, store)
  | some expires_at =>
    if now > expires_at then (false, store.filter (fun p => p.1 ≠ cache_key))
    else (true, store)

/-- `_mark_webhook_event_processed(event_id)` (`billing.py:116-125`), memory
path: store `expires_at = now + WEBHOOK_EVENT_TTL_SECONDS`. -/
def _mark_webhook_event_processed (ttl : ℕ) (store : List (String × ℕ)) (now : ℕ)
    (event_id : String) : List (String × ℕ) :=
  let cache_key := webhookEventKey event_id
  (cache_key, now + ttl) :: store.filter (fun p => p.1 ≠ cache_key)

/-- The fields of `event["data"]["object"]` that `handle_webhook` reads:
for `checkout.session.completed` the session's `customer_email`,
`metadata["email"]`, `metadata["plan"]`, `customer` and `subscription`; for
`customer.subscription.deleted` the subscription's `id`. -/
structure EventObject where
  customer_email : Option String
  metadata_email : Option String
  metadata_plan : Option String
  customer : Option String
  subscription : Option String
  objId : String
deriving DecidableEq

/-- A parsed Stripe event: `event.get("id")`, `event["type"]`, and
`event["data"]["object"]`. -/
structure StripeEvent where
  id : Option String
  type : String
  obj : EventObject
deriving DecidableEq

/-- Failures of `stripe.Webhook.construct_event` (an external call): a
`ValueError` on a bad payload or a `SignatureVerificationError`. -/
inductive ConstructError
  | valueError
  | signatureVerificationError
deriving DecidableEq

/-- Invocations of the state-mutating handlers `_upgrade_or_create_key` and
`_downgrade_to_free`; `handle_webhook` is verified through the log of these
invocations, the handlers' own body being out of this claim's scope. -/
inductive HandlerCall
  | upgradeOrCreate (email plan : String) (customer subscription : Option String)
  | downgradeToFree (subscription_id : String)
deriving DecidableEq

/-- The dict returned by `handle_webhook`: either `{"error": msg}` or
`{"status": ..., "event": ..., "reason"?: ...}`. -/
inductive WebhookResult
  | errorResult (msg : String)
  | statusResult (status : String) (event : String) (reason : Option String)
deriving DecidableEq

/-- `handle_webhook(payload, sig_header)` (`billing.py:231-269`), memory path.
`constructed` is the outcome of the external `stripe.Webhook.construct_event`
call. Returns the result dict, the updated event-dedup store, and the log of
mutating-handler invocations. -/
def handle_webhook (ttl : ℕ) (constructed : Except ConstructError StripeEvent)
    (store : List (String × ℕ)) (now : ℕ) :
    WebhookResult × List (String × ℕ) × List HandlerCall :=
  match constructed with
  | .error .valueError => (.errorResult "Invalid payload", store, [])
  | .error .signatureVerificationError => (.errorResult "Invalid signature", store, [])
  | .ok event =>
    let check : Bool × List (String × ℕ) :=
      match event.id with
      | some eid =>
        if eid ≠ "" then _is_webhook_event_processed store now eid else (false, store)
      | none => (false, store)
    if check.1 then
      (.statusResult "ignored" event.type (some "duplicate_event"), check.2, [])
    else
      let markIf : List (String × ℕ) → List (String × ℕ) := fun st =>
        match event.id with
        | some eid =>
          if eid ≠ "" then _mark_webhook_event_processed ttl st now eid else st
        | none => st
      if event.type = "checkout.session.completed" then
        let email := pyOrStr event.obj.customer_email event.obj.metadata_email
        let calls : List HandlerCall :=
          match email, event.obj.metadata_plan with
          | some em, some pl =>
            if em ≠ "" && pl ≠ "" then
              [.upgradeOrCreate em pl event.obj.customer event.obj.subscription]
            else []
          | _, _ => []
        (.statusResult "success" "checkout.session.completed" none, markIf check.2, calls)
      else if event.type = "customer.subscription.deleted" then
        (.statusResult "success" "customer.subscription.deleted" none, markIf check.2,
          [.downgradeToFree event.obj.objId])
      else
        (.statusResult "ignored" event.type none, markIf check.2, [])

/-! ### Checkout-session idempotency (`billing.py:71-97, 194-228`) -/

/-- A `_memory_store` entry written by `_cache_checkout`. -/
structure CheckoutEntry where
  checkout_url : String
  expires_at : ℕ
deriving DecidableEq

/-- The billing state touched by checkout: the idempotency entries of
`_memory_store`, plus two instrumentation counters — how many times
`stripe.checkout.Session.create` was invoked and how many times
`_get_cached_checkout` was entered. -/
structure CheckoutState where
  cache : List (String × CheckoutEntry)
  providerCalls : ℕ
  cacheReads : ℕ
deriving DecidableEq

/-- The `_memory_store` key `f"idempotency:checkout:{idempotency_key}"`. -/
def checkoutCacheKey (idempotency_key : String) : String :=
  "idempotency:checkout:" ++ idempotency_key

/-- `_get_cached_checkout(idempotency_key)` (`billing.py:71-84`), memory path
with lazy expiry on read. -/
def _get_cached_checkout (st : CheckoutState) (now : ℕ) (idempotency_key : String) :
    Option String × CheckoutState :=
  let cache_key := checkoutCacheKey idempotency_key
  let st1 := { st with cacheReads := st.cacheReads + 1 }
  match st1.cache.lookup cache_key with
  | none => (none, st1)
  | some entry =>
    if now > entry.expires_at then
      (none, { st1 with cache := st1.cache.filter (fun p => p.1 ≠ cache_key) })
    else (some entry.checkout_url, st1)

/-- `_cache_checkout(idempotency_key, checkout_url)` (`billing.py:87-97`),
memory path: store the URL with `expires_at = now + TTL`. -/
def _cache_checkout (ttl : ℕ) (st : CheckoutState) (now : ℕ)
    (idempotency_key checkout_url : String) : CheckoutState :=
  let cache_key := checkoutCacheKey idempotency_key
  { st with cache :=
      (cache_key, ⟨checkout_url, now + ttl⟩) ::
        st.cache.filter (fun p => p.1 ≠ cache_key) }

/-- The `stripe_price_id` column of `PLANS` (`billing.py:129-134`); the paid
prices come from environment variables and may be unset. Returns `none` when
the plan is not in `PLANS` at all. -/
structure PlansConfig where
  basic_price : Option String
  pro_price : Option String
  ultra_price : Option String

/-- Membership and `stripe_price_id` lookup in `PLANS`. -/
def plan_stripe_price_id (cfg : PlansConfig) : String → Option (Option String)
  | "free" => some none
  | "basic" => some cfg.basic_price
  | "pro" => some cfg.pro_price
  | "ultra" => some cfg.ultra_price
  | _ => none

/-- `create_checkout_session(email, plan, success_url, cancel_url,
idempotency_key)` (`billing.py:194-228`); `.error` models a raised
`ValueError`. `provider n` is the URL of the session returned by the `n`-th
`stripe.checkout.Session.create` invocation (an external call). -/
def create_checkout_session (ttl : ℕ) (cfg : PlansConfig) (provider : ℕ → String)
    (st : CheckoutState) (now : ℕ) (email plan success_url cancel_url : String)
    (idempotency_key : Option String) : Except String (String × CheckoutState) :=
  match plan_stripe_price_id cfg plan with
  | none => .error ("Invalid plan: " ++ plan)
  | some price_id =>
    if plan = "free" then .error ("Invalid plan: " ++ plan)
    else if ¬ pyTruthy price_id then
      .error ("Stripe price not configured for plan: " ++ plan)
    else
      let read : Option String × CheckoutState :=
        match idempotency_key with
        | some k => if k ≠ "" then _get_cached_checkout st now k else (none, st)
        | none => (none, st)
      let providerStep : CheckoutState → Except String (String × CheckoutState) := fun st1 =>
        let url := provider st1.providerCalls
        let st2 := { st1 with providerCalls := st1.providerCalls + 1 }
        let st3 :=
          match idempotency_key with
          | some k => if k ≠ "" then _cache_checkout ttl st2 now k url else st2
          | none => st2
        .ok (url, st3)
      match read with
      | (some cached, st1) => if cached = "" then providerStep st1 else .ok (cached, st1)
      | (none, st1) => providerStep st1

/-- URL of a successful `create_checkout_session` call. -/
def exceptUrl : Except String (String × CheckoutState) → Option String
  | .ok (url, _) => some url
  | .error _ => none

/-- State after a `create_checkout_session` call (unchanged if it raised). -/
def exceptState (st : CheckoutState) : Except String (String × CheckoutState) → CheckoutState
  | .ok (_, st') => st'
  | .error _ => st

end Billing

namespace Main

/-! ### `src/enrichment_api/main.py` — checkout endpoint and batch endpoint -/

/-- Response of the checkout endpoint: `{"checkout_url": ...}` or an
`HTTPException`. -/
inductive EndpointResult
  | checkoutUrl (url : String)
  | httpError (status_code : ℕ) (detail : String)
deriving DecidableEq

/-- `checkout_endpoint(request)` (`main.py:188-210`): validate the plan, then
call `billing.create_checkout_session(email=..., plan=..., success_url=...,
cancel_url=...)`. The call site passes no `idempotency_key`, so the
parameter takes its default `None` — modelled by the explicit `none`
argument. A `ValueError` maps to HTTP 400 with its message. -/
def checkout_endpoint (ttl : ℕ) (cfg : Billing.PlansConfig) (provider : ℕ → String)
    (st : Billing.CheckoutState) (now : ℕ) (email plan base_url : String) :
    EndpointResult × Billing.CheckoutState :=
  if plan ∉ (["basic", "pro", "ultra"] : List String) then
    (.httpError 400 "Invalid plan. Choose: basic, pro, or ultra", st)
  else
    match Billing.create_checkout_session ttl cfg provider st now email plan
      (base_url ++ "/checkout/success") (base_url ++ "/checkout/cancel") none with
    | .ok (url, st') => (.checkoutUrl url, st')
    | .error msg => (.httpError 400 msg, st)

/-! ### Batch enrichment (`main.py:364-396`) and schemas (`schemas.py`) -/

/-- `EnrichmentRequest` (`schemas.py:6-32`). -/
structure EnrichmentRequest where
  raw_data : String
  data_type : String
deriving DecidableEq

/-- `CompanyInfo` (`schemas.py:52-66`). -/
structure CompanyInfo where
  name : String
  domain : Option String
  industry : Option String
  description : Option String
  headquarters : Option String
  founded_year : Option ℤ
  employee_count : Option String
  linkedin_url : Option String
deriving DecidableEq

/-- `AddressInfo` (`schemas.py:69-79`). -/
structure AddressInfo where
  street : Option String
  city : Option String
  state : Option String
  postal_code : Option String
  country : String
  formatted_address : String
deriving DecidableEq

/-- `PersonInfo` (`schemas.py:82-92`). -/
structure PersonInfo where
  full_name : String
  first_name : Option String
  last_name : Option String
  title : Option String
  company : Option String
  linkedin_url : Option String
deriving DecidableEq

/-- `DomainInfo` (`schemas.py:95-108`). -/
structure DomainInfo where
  domain : String
  company_name : Option String
  industry : Option String
  description : Option String
  headquarters : Option String
  founded_year : Option ℤ
  employee_count : Option String
  technologies : Option (List String)
  social_profiles : Option (List (String × String))
deriving DecidableEq

/-- `EnrichmentResponse` (`schemas.py:111-136`); `confidence_score` is an
exact rational in `[0, 1]`. -/
structure EnrichmentResponse where
  success : Bool
  data_type : String
  original_input : String
  company : Option CompanyInfo
  address : Option AddressInfo
  person : Option PersonInfo
  domain_info : Option DomainInfo
  confidence_score : ℚ
  sources : List String
deriving DecidableEq

/-- `BatchEnrichmentResponse` (`schemas.py:139-148`). -/
structure BatchEnrichmentResponse where
  success : Bool
  total : ℕ
  successful : ℕ
  failed : ℕ
  results : List EnrichmentResponse
deriving DecidableEq

/-- `process_item(item)` inside `batch_enrich_endpoint` (`main.py:365-379`):
`outcome` is the result of `await enrich_data(item)`; any raised `Exception`
is replaced by the fixed failure response. -/
def process_item {ε : Type} (item : EnrichmentRequest)
    (outcome : Except ε EnrichmentResponse) : EnrichmentResponse :=
  match outcome with
  | .ok r => r
  | .error _ =>
    { success := false
      data_type := item.data_type
      original_input := item.raw_data
      company := none
      address := none
      person := none
      domain_info := none
      confidence_score := 0
      sources := [] }

/-- The `asyncio.gather` of `process_item` over the items (`main.py:381`);
`outcomes i` is the `enrich_data` outcome of the item at position `start + i`. -/
def batch_results {ε : Type} (outcomes : ℕ → Except ε EnrichmentResponse) :
    ℕ → List EnrichmentRequest → List EnrichmentResponse
  | _, [] => []
  | start, item :: rest =>
    process_item item (outcomes start) :: batch_results outcomes (start + 1) rest

/-- The post-authentication body of `batch_enrich_endpoint`
(`main.py:364-396`). Returns the response and the number of
`billing.increment_usage` calls performed: the `if x_api_key:` guard at
`main.py:384` is Python truthiness, so one call per item when the
`X-API-Key` header value is present and non-empty, none otherwise. -/
def batch_enrich_endpoint {ε : Type} (outcomes : ℕ → Except ε EnrichmentResponse)
    (x_api_key : Option String) (items : List EnrichmentRequest) :
    BatchEnrichmentResponse × ℕ :=
  let results := batch_results outcomes 0 items
  let usage : ℕ :=
    if pyTruthy x_api_key then items.length else 0
  let successful := (results.filter (fun r => r.success)).length
  ({ success := true
     total := results.length
     successful := successful
     failed := results.length - successful
     results := results }, usage)

end Main

/-! ## Concrete oracles used by witnesses -/

/-- Attempt oracle where model `"A"` always fails with a retryable rate-limit
error and every other model succeeds immediately. -/
def retryOracle : String → ℕ → Llm.AttemptOutcome ℕ :=
  fun m _ => if m = "A" then .raises .rateLimitError else .success 7

/-- Attempt oracle whose every attempt raises a non-retryable error. -/
def fatalOracle : String → ℕ → Llm.AttemptOutcome ℕ :=
  fun _ _ => .raises (.otherExc "ValueError")

/-- Attempt oracle whose every attempt observes a caller cancellation. -/
def cancelOracle : String → ℕ → Llm.AttemptOutcome ℕ :=
  fun _ _ => .cancelled

/-- A successful enrichment response used by batch witnesses. -/
def sampleResponse : Main.EnrichmentResponse :=
  { success := true
    data_type := "company"
    original_input := "Stripe"
    company := none
    address := none
    person := none
    domain_info := none
    confidence_score := 9 / 10
    sources := ["https://stripe.com"] }

/-- Batch outcome oracle: the item at position 0 raises, the rest succeed. -/
def batchOracle : ℕ → Except Unit Main.EnrichmentResponse :=
  fun i => if i = 0 then .error () else .ok sampleResponse

lemma create_checkout_none_key (ttl : ℕ) (cfg : Billing.PlansConfig)
    (provider : ℕ → String) (st : Billing.CheckoutState) (now : ℕ)
    (email plan success_url cancel_url pid : String)
    (hplan : Billing.plan_stripe_price_id cfg plan = some (some pid))
    (hpid : pid ≠ "") (hfree : plan ≠ "free") :
    Billing.create_checkout_session ttl cfg provider st now email plan
      success_url cancel_url none =
      .ok (provider st.providerCalls, { st with providerCalls := st.providerCalls + 1 }) := by
  simp [Billing.create_checkout_session, hplan, hfree, pyTruthy, hpid]

lemma batch_results_get? {ε : Type} (outcomes : ℕ → Except ε Main.EnrichmentResponse) :
    ∀ (items : List Main.EnrichmentRequest) (start i : ℕ),
      (Main.batch_results outcomes start items).get? i =
        (items.get? i).map (fun item => Main.process_item item (outcomes (start + i))) := by
  intro items
  induction items with
  | nil => intro start i; simp [Main.batch_results]
  | cons item rest ih =>
    intro start i
    cases i with
    | zero => simp [Main.batch_results]
    | succ j =>
      have h : start + 1 + j = start + (j + 1) := by omega
      simp only [Main.batch_results, List.get?_cons_succ, ih (start + 1) j, h]

lemma batch_results_length {ε : Type} (outcomes : ℕ → Except ε Main.EnrichmentResponse) :
    ∀ (items : List Main.EnrichmentRequest) (start : ℕ),
      (Main.batch_results outcomes start items).length = items.length := by
  intro items
  induction items with
  | nil => intro start; simp [Main.batch_results]
  | cons item rest ih => intro start; simp [Main.batch_results, ih]

/-! ## Claim theorems -/

/-- C5: the model-provider error classifier returns retryable exactly for
timeout/connection/rate-limit/internal-server exceptions, status-coded API
errors with status in {408, 409, 425, 429, 500, 502, 503, 504, 529}, and
wrapped validation-retry exceptions whose (case-folded) message contains
"overloaded", "rate limit", or the status-529 marker; every other exception
is fatal. -/
theorem llm_error_classifier_matches_spec (e : Llm.LlmError) :
    Llm._is_retryable_llm_error e = true ↔ Llm.SpecRetryableLlm e := by
  cases e with
  | apiTimeoutError => simp [Llm._is_retryable_llm_error, Llm.SpecRetryableLlm]
  | apiConnectionError => simp [Llm._is_retryable_llm_error, Llm.SpecRetryableLlm]
  | rateLimitError => simp [Llm._is_retryable_llm_error, Llm.SpecRetryableLlm]
  | internalServerError => simp [Llm._is_retryable_llm_error, Llm.SpecRetryableLlm]
  | apiStatusError c =>
    simp [Llm._is_retryable_llm_error, Llm.SpecRetryableLlm, Llm.RETRYABLE_STATUS_CODES]
  | instructorRetry msg =>
    simp [Llm._is_retryable_llm_error, Llm.SpecRetryableLlm, or_assoc]
  | otherExc n => simp [Llm._is_retryable_llm_error, Llm.SpecRetryableLlm]

/-- C6: for every attempt number `n ≥ 1` and every jitter draw `u` in
`[0, jitter)`, the backoff delay of both the model-provider and the
search-provider policy satisfies `base * 2^(n-1) ≤ delay < base * 2^(n-1) + jitter`. -/
theorem retry_delay_bounds (n : ℕ) (u v : ℚ)
    (hn : 1 ≤ n)
    (hu0 : 0 ≤ u) (hu1 : u < Llm.LLM_BACKOFF_JITTER_SECONDS)
    (hv0 : 0 ≤ v) (hv1 : v < Tools.SERPER_BACKOFF_JITTER_SECONDS) :
    (Llm.LLM_BACKOFF_BASE_SECONDS * 2 ^ (n - 1) ≤ Llm._retry_delay_seconds u n ∧
      Llm._retry_delay_seconds u n <
        Llm.LLM_BACKOFF_BASE_SECONDS * 2 ^ (n - 1) + Llm.LLM_BACKOFF_JITTER_SECONDS) ∧
    (Tools.SERPER_BACKOFF_BASE_SECONDS * 2 ^ (n - 1) ≤ Tools._retry_delay_seconds v n ∧
      Tools._retry_delay_seconds v n <
        Tools.SERPER_BACKOFF_BASE_SECONDS * 2 ^ (n - 1) + Tools.SERPER_BACKOFF_JITTER_SECONDS) := by
  unfold Llm._retry_delay_seconds Tools._retry_delay_seconds
  constructor
  · constructor
    · linarith
    · linarith
  · constructor
    · linarith
    · linarith

/-- Witness for C6: the bounds hold concretely at attempt 2 with draws
`1/10` and `1/5`. -/
theorem retry_delay_bounds_witness :
    (Llm.LLM_BACKOFF_BASE_SECONDS * 2 ^ (2 - 1) ≤ Llm._retry_delay_seconds (1 / 10) 2 ∧
      Llm._retry_delay_seconds (1 / 10) 2 <
        Llm.LLM_BACKOFF_BASE_SECONDS * 2 ^ (2 - 1) + Llm.LLM_BACKOFF_JITTER_SECONDS) ∧
    (Tools.SERPER_BACKOFF_BASE_SECONDS * 2 ^ (2 - 1) ≤ Tools._retry_delay_seconds (1 / 5) 2 ∧
      Tools._retry_delay_seconds (1 / 5) 2 <
        Tools.SERPER_BACKOFF_BASE_SECONDS * 2 ^ (2 - 1) + Tools.SERPER_BACKOFF_JITTER_SECONDS) :=
  retry_delay_bounds 2 (1 / 10) (1 / 5) (by norm_num)
    (by norm_num) (by norm_num [Llm.LLM_BACKOFF_JITTER_SECONDS])
    (by norm_num) (by norm_num [Tools.SERPER_BACKOFF_JITTER_SECONDS])

/-- C7: the constructed model chain has no duplicates, puts the non-empty
stripped primary first, equals the first-seen deduplication of the candidate
list (so first-seen order is preserved and construction is idempotent under
duplicate fallback entries), and in particular
`chain("A", "B,A,B,C") = ["A", "B", "C"]`. -/
theorem model_chain_construction (p f : String) :
    (Llm._model_chain p f).Nodup ∧
    (pyStrip p ≠ "" → (Llm._model_chain p f).head? = some (pyStrip p)) ∧
    Llm._model_chain p f = Llm.firstSeenKeep [] (Llm.chainCandidates p f) ∧
    Llm._model_chain "A" "B,A,B,C" = ["A", "B", "C"] := by
  refine ⟨?_, ?_, model_chain_eq_firstSeen p f, by decide⟩
  · rw [model_chain_eq_firstSeen p f]
    exact (firstSeenKeep_nodup (Llm.chainCandidates p f) []).1
  · intro hp
    rw [model_chain_eq_firstSeen p f]
    unfold Llm.chainCandidates
    simp [Llm.firstSeenKeep, hp]

/-- Witness for C7: the chain properties evaluated on the concrete
environment values `"A"` and `"B,A,B,C"`. -/
theorem model_chain_construction_witness :
    (Llm._model_chain "A" "B,A,B,C").Nodup ∧
    (Llm._model_chain "A" "B,A,B,C").head? = some (pyStrip "A") ∧
    Llm._model_chain "A" "B,A,B,C" = ["A", "B", "C"] :=
  ⟨(model_chain_construction "A" "B,A,B,C").1,
    (model_chain_construction "A" "B,A,B,C").2.1 (by decide),
    (model_chain_construction "A" "B,A,B,C").2.2.2⟩

/-- C1: in the model-call orchestrator, a retryable error with attempts
remaining retries the same model after a backoff; a retryable error on the
last allowed attempt exhausts the per-model loop, and an exhausted loop
advances to the next model in the chain (threading `last_error`); a
non-retryable error propagates immediately with no retry and no later model
ever attempted. -/
theorem model_fallback_orchestration {α : Type}
    (o : String → ℕ → Llm.AttemptOutcome α) (m m' : String) (ms : List String)
    (last last' : Option Llm.StoredExc) (a a' : ℕ) (rest attempts : List ℕ)
    (tr : List Llm.LoopEv) (e₁ e₂ e₃ : Llm.LlmError) :
    (o m a = .raises e₁ → Llm._is_retryable_llm_error e₁ = true →
      ∃ tl, (Llm.runChain o (a :: a' :: rest) (m :: ms) last).2 =
        .call m a :: .backoff m a :: .call m a' :: tl) ∧
    (o m a = .raises e₂ → Llm._is_retryable_llm_error e₂ = true →
      Llm.runAttempts (o m) [a] last = (.exhausted (some (.llmExc e₂)), [.call a])) ∧
    (Llm.runAttempts (o m) (a :: attempts) last = (.exhausted last', tr) →
      Llm.runChain o (a :: attempts) (m :: m' :: ms) last =
        ((Llm.runChain o (a :: attempts) (m' :: ms) last').1,
          tr.map (Llm.tagModel m) ++ (Llm.runChain o (a :: attempts) (m' :: ms) last').2) ∧
      ((Llm.runChain o (a :: attempts) (m' :: ms) last').2).head? = some (.call m' a)) ∧
    (o m a = .raises e₃ → Llm._is_retryable_llm_error e₃ = false →
      Llm.runChain o (a :: rest) (m :: ms) last = (.fatal e₃, [.call m a])) := by
  refine ⟨?_, ?_, ?_, ?_⟩
  · intro h hr
    obtain ⟨t, ht⟩ := runAttempts_trace_head (o m) a' rest (some (Llm.StoredExc.llmExc e₁))
    have hu : Llm.runAttempts (o m) (a :: a' :: rest) last =
        ((Llm.runAttempts (o m) (a' :: rest) (some (.llmExc e₁))).1,
          .call a :: .backoff a ::
            (Llm.runAttempts (o m) (a' :: rest) (some (.llmExc e₁))).2) := by
      simp [Llm.runAttempts, h, hr]
    rw [ht] at hu
    rcases hfst : (Llm.runAttempts (o m) (a' :: rest) (some (Llm.StoredExc.llmExc e₁))).1
      with v | _ | e | l2 <;> rw [hfst] at hu
    · exact ⟨List.map (Llm.tagModel m) t, by simp [Llm.runChain, hu, Llm.tagModel]⟩
    · exact ⟨List.map (Llm.tagModel m) t, by simp [Llm.runChain, hu, Llm.tagModel]⟩
    · exact ⟨List.map (Llm.tagModel m) t, by simp [Llm.runChain, hu, Llm.tagModel]⟩
    · exact ⟨List.map (Llm.tagModel m) t ++ (Llm.runChain o (a :: a' :: rest) ms l2).2,
        by simp [Llm.runChain, hu, Llm.tagModel]⟩
  · intro h hr
    simp [Llm.runAttempts, h, hr]
  · intro hr
    exact ⟨by simp [Llm.runChain, hr], runChain_trace_head o a attempts m' ms last'⟩
  · intro h hr
    have hloop : Llm.runAttempts (o m) (a :: rest) last = (.fatal e₃, [.call a]) := by
      simp [Llm.runAttempts, h, hr]
    simp [Llm.runChain, hloop, Llm.tagModel]

/-- Witness for C1: the four behaviours evaluated on concrete oracles, a
two-model chain `["A", "B"]` and concrete attempt numbers. -/
theorem model_fallback_orchestration_witness :
    (∃ tl, (Llm.runChain retryOracle [1, 2] ["A", "B"] none).2 =
      .call "A" 1 :: .backoff "A" 1 :: .call "A" 2 :: tl) ∧
    Llm.runAttempts (retryOracle "A") [1] none =
      (.exhausted (some (.llmExc .rateLimitError)), [.call 1]) ∧
    (Llm.runChain retryOracle [1] ["A", "B"] none =
      ((Llm.runChain retryOracle [1] ["B"] (some (.llmExc .rateLimitError))).1,
        [Llm.LoopEv.call 1].map (Llm.tagModel "A") ++
          (Llm.runChain retryOracle [1] ["B"] (some (.llmExc .rateLimitError))).2) ∧
      ((Llm.runChain retryOracle [1] ["B"] (some (.llmExc .rateLimitError))).2).head? =
        some (.call "B" 1)) ∧
    Llm.runChain fatalOracle [1, 2] ["A", "B"] none =
      (.fatal (.otherExc "ValueError"), [.call "A" 1]) :=
  ⟨(model_fallback_orchestration retryOracle "A" "B" ["B"] none none 1 2 [] [] []
      .rateLimitError .rateLimitError .rateLimitError).1 (by decide) (by decide),
    (model_fallback_orchestration retryOracle "A" "B" ["B"] none none 1 2 [] [] []
      .rateLimitError .rateLimitError .rateLimitError).2.1 (by decide) (by decide),
    (model_fallback_orchestration retryOracle "A" "B" []
      none (some (.llmExc .rateLimitError)) 1 2 [] [] [Llm.LoopEv.call 1]
      .rateLimitError .rateLimitError .rateLimitError).2.2.1 (by decide),
    (model_fallback_orchestration fatalOracle "A" "B" ["B"] none none 1 2 [2] [] []
      (.otherExc "ValueError") (.otherExc "ValueError") (.otherExc "ValueError")).2.2.2
      (by decide) (by decide)⟩

/-- C8: a caller cancellation surfacing at any attempt makes the retry loop
re-raise at once (no retry, no chain advance), and the timeout budget
controller re-raises a cancellation it did not cause instead of converting it
into `EnrichmentTimeoutError`, whether it surfaces during the search phase or
the model phase. -/
theorem cancellation_propagation {α : Type}
    (o : String → ℕ → Llm.AttemptOutcome α) (m : String) (ms : List String)
    (a : ℕ) (rest : List ℕ) (last : Option Llm.StoredExc)
    (search : Llm.AsyncOutcome String) (llm : String → Llm.AsyncOutcome α) (ctx : String) :
    (o m a = .cancelled →
      Llm.runChain o (a :: rest) (m :: ms) last = (.cancelled, [.call m a])) ∧
    (search = .cancelled →
      Llm.enrich_data false false search llm = (.cancelled, 1, 0)) ∧
    (search = .ok ctx → llm ctx = .cancelled →
      Llm.enrich_data false false search llm = (.cancelled, 1, 1)) := by
  refine ⟨?_, ?_, ?_⟩
  · intro h
    have hloop : Llm.runAttempts (o m) (a :: rest) last = (.cancelled, [.call a]) := by
      simp [Llm.runAttempts, h]
    simp [Llm.runChain, hloop, Llm.tagModel]
  · rintro rfl
    simp [Llm.enrich_data, Llm.asyncTimeoutScope, Llm.enrich_boundary]
  · rintro rfl hc
    simp [Llm.enrich_data, Llm.asyncTimeoutScope, Llm.enrich_boundary, hc]

/-- Witness for C8: cancellation observed on a concrete chain and in both
phases of a concrete enrichment run. -/
theorem cancellation_propagation_witness :
    Llm.runChain cancelOracle [1, 2] ["A", "B"] none = (.cancelled, [.call "A" 1]) ∧
    Llm.enrich_data false false Llm.AsyncOutcome.cancelled
      (fun _ => Llm.AsyncOutcome.ok 3) = (.cancelled, 1, 0) ∧
    Llm.enrich_data false false (Llm.AsyncOutcome.ok "ctx")
      (fun _ => (Llm.AsyncOutcome.cancelled : Llm.AsyncOutcome ℕ)) = (.cancelled, 1, 1) :=
  ⟨(cancellation_propagation cancelOracle "A" ["B"] 1 [2] none
      .cancelled (fun _ => Llm.AsyncOutcome.ok 3) "ctx").1 (by decide),
    (cancellation_propagation cancelOracle "A" ["B"] 1 [2] none
      .cancelled (fun _ => Llm.AsyncOutcome.ok 3) "ctx").2.1 rfl,
    (cancellation_propagation cancelOracle "A" ["B"] 1 [2] none
      (.ok "ctx") (fun _ => (Llm.AsyncOutcome.cancelled : Llm.AsyncOutcome ℕ)) "ctx").2.2
      rfl rfl⟩

/-- C4: expiry of the search-phase sub-deadline or of the overall deadline,
wherever it surfaces, yields the typed `EnrichmentTimeoutError` at the
boundary of `enrich_data`; the caller never observes a raw
`asyncio.TimeoutError`; and the budget layer runs each phase at most once
(no retry of a timed-out request). -/
theorem timeout_budget_conversion {α : Type}
    (innerExpired outerExpired : Bool)
    (search : Llm.AsyncOutcome String) (llm : String → Llm.AsyncOutcome α) (ctx : String) :
    (innerExpired = true → search = .cancelled →
      (Llm.enrich_data innerExpired outerExpired search llm).1 = .enrichmentTimeoutError) ∧
    (innerExpired = false → outerExpired = true → search = .cancelled →
      (Llm.enrich_data innerExpired outerExpired search llm).1 = .enrichmentTimeoutError) ∧
    (search = .ok ctx → llm ctx = .cancelled → outerExpired = true →
      (Llm.enrich_data innerExpired outerExpired search llm).1 = .enrichmentTimeoutError) ∧
    (Llm.enrich_data innerExpired outerExpired search llm).1 ≠ .raisesTimeoutErr ∧
    (Llm.enrich_data innerExpired outerExpired search llm).2.1 = 1 ∧
    (Llm.enrich_data innerExpired outerExpired search llm).2.2 ≤ 1 := by
  refine ⟨?_, ?_, ?_, ?_, ?_, ?_⟩
  · rintro rfl rfl
    cases outerExpired <;>
      simp [Llm.enrich_data, Llm.asyncTimeoutScope, Llm.enrich_boundary]
  · rintro rfl rfl rfl
    simp [Llm.enrich_data, Llm.asyncTimeoutScope, Llm.enrich_boundary]
  · rintro rfl hc rfl
    cases innerExpired <;>
      simp [Llm.enrich_data, Llm.asyncTimeoutScope, Llm.enrich_boundary, hc]
  · rcases search with v | _ | _ | e <;>
      cases innerExpired <;> cases outerExpired <;>
      try simp [Llm.enrich_data, Llm.asyncTimeoutScope, Llm.enrich_boundary]
    all_goals rcases h : llm v with w | _ | _ | e2 <;>
      simp [Llm.enrich_data, Llm.asyncTimeoutScope, Llm.enrich_boundary, h]
  · cases innerExpired <;> rcases search with v | _ | _ | e <;>
      simp [Llm.enrich_data, Llm.asyncTimeoutScope]
  · cases innerExpired <;> rcases search with v | _ | _ | e <;>
      simp [Llm.enrich_data, Llm.asyncTimeoutScope]

/-- Witness for C4: concrete runs in which the inner deadline expires during
search, the outer deadline expires during search, and the outer deadline
expires during the model phase, all surfacing as the typed timeout. -/
theorem timeout_budget_conversion_witness :
    (Llm.enrich_data true false Llm.AsyncOutcome.cancelled
      (fun _ => Llm.AsyncOutcome.ok 5)).1 = .enrichmentTimeoutError ∧
    (Llm.enrich_data false true Llm.AsyncOutcome.cancelled
      (fun _ => Llm.AsyncOutcome.ok 5)).1 = .enrichmentTimeoutError ∧
    (Llm.enrich_data false true (Llm.AsyncOutcome.ok "ctx")
      (fun _ => (Llm.AsyncOutcome.cancelled : Llm.AsyncOutcome ℕ))).1 =
        .enrichmentTimeoutError :=
  ⟨(timeout_budget_conversion true false Llm.AsyncOutcome.cancelled
      (fun _ => Llm.AsyncOutcome.ok 5) "ctx").1 rfl rfl,
    (timeout_budget_conversion false true Llm.AsyncOutcome.cancelled
      (fun _ => Llm.AsyncOutcome.ok 5) "ctx").2.1 rfl rfl rfl,
    (timeout_budget_conversion false true (Llm.AsyncOutcome.ok "ctx")
      (fun _ => (Llm.AsyncOutcome.cancelled : Llm.AsyncOutcome ℕ)) "ctx").2.2.1
      rfl rfl rfl⟩

/-- C2: processing a verified event with a fresh id returns
`{status: "success"}`, and re-processing the same event id before the dedup
record expires returns `{status: "ignored", reason: "duplicate_event"}` with
no state mutation; the mutating handler (plan upgrade, or downgrade-to-free)
runs exactly once across the two deliveries. -/
theorem webhook_dedup_exactly_once
    (ttl now1 now2 : ℕ) (store0 : List (String × ℕ)) (eid : String)
    (obj : Billing.EventObject) (em pl : String)
    (heid : eid ≠ "")
    (hfresh : store0.lookup (Billing.webhookEventKey eid) = none)
    (hts : now2 ≤ now1 + ttl)
    (hem : pyOrStr obj.customer_email obj.metadata_email = some em) (hem2 : em ≠ "")
    (hpl : obj.metadata_plan = some pl) (hpl2 : pl ≠ "") :
    (Billing.handle_webhook ttl
        (.ok ⟨some eid, "checkout.session.completed", obj⟩) store0 now1 =
      (.statusResult "success" "checkout.session.completed" none,
        Billing._mark_webhook_event_processed ttl store0 now1 eid,
        [.upgradeOrCreate em pl obj.customer obj.subscription])) ∧
    (Billing.handle_webhook ttl
        (.ok ⟨some eid, "checkout.session.completed", obj⟩)
        (Billing._mark_webhook_event_processed ttl store0 now1 eid) now2 =
      (.statusResult "ignored" "checkout.session.completed" (some "duplicate_event"),
        Billing._mark_webhook_event_processed ttl store0 now1 eid, [])) ∧
    (Billing.handle_webhook ttl
        (.ok ⟨some eid, "customer.subscription.deleted", obj⟩) store0 now1 =
      (.statusResult "success" "customer.subscription.deleted" none,
        Billing._mark_webhook_event_processed ttl store0 now1 eid,
        [.downgradeToFree obj.objId])) ∧
    (Billing.handle_webhook ttl
        (.ok ⟨some eid, "customer.subscription.deleted", obj⟩)
        (Billing._mark_webhook_event_processed ttl store0 now1 eid) now2 =
      (.statusResult "ignored" "customer.subscription.deleted" (some "duplicate_event"),
        Billing._mark_webhook_event_processed ttl store0 now1 eid, [])) := by
  have hnot : ¬ (now2 > now1 + ttl) := not_lt.mpr hts
  have hlook : (Billing._mark_webhook_event_processed ttl store0 now1 eid).lookup
      (Billing.webhookEventKey eid) = some (now1 + ttl) := by
    simp [Billing._mark_webhook_event_processed, List.lookup]
  refine ⟨?_, ?_, ?_, ?_⟩
  · simp [Billing.handle_webhook, Billing._is_webhook_event_processed, hfresh, heid,
      hem, hpl, hem2, hpl2]
  · simp [Billing.handle_webhook, Billing._is_webhook_event_processed, hlook, heid, hnot]
  · simp [Billing.handle_webhook, Billing._is_webhook_event_processed, hfresh, heid]
  · simp [Billing.handle_webhook, Billing._is_webhook_event_processed, hlook, heid, hnot]

/-- Witness for C2: a concrete checkout-completion event and a concrete
subscription-deletion event, each delivered twice against an empty store. -/
theorem webhook_dedup_exactly_once_witness :
    (Billing.handle_webhook 100
        (.ok ⟨some "evt_1", "checkout.session.completed",
          ⟨some "a@b.co", none, some "basic", some "cus_1", some "sub_1", "sub_1"⟩⟩) [] 0 =
      (.statusResult "success" "checkout.session.completed" none,
        Billing._mark_webhook_event_processed 100 [] 0 "evt_1",
        [.upgradeOrCreate "a@b.co" "basic" (some "cus_1") (some "sub_1")])) ∧
    (Billing.handle_webhook 100
        (.ok ⟨some "evt_1", "checkout.session.completed",
          ⟨some "a@b.co", none, some "basic", some "cus_1", some "sub_1", "sub_1"⟩⟩)
        (Billing._mark_webhook_event_processed 100 [] 0 "evt_1") 30 =
      (.statusResult "ignored" "checkout.session.completed" (some "duplicate_event"),
        Billing._mark_webhook_event_processed 100 [] 0 "evt_1", [])) ∧
    (Billing.handle_webhook 100
        (.ok ⟨some "evt_1", "customer.subscription.deleted",
          ⟨some "a@b.co", none, some "basic", some "cus_1", some "sub_1", "sub_1"⟩⟩) [] 0 =
      (.statusResult "success" "customer.subscription.deleted" none,
        Billing._mark_webhook_event_processed 100 [] 0 "evt_1",
        [.downgradeToFree "sub_1"])) ∧
    (Billing.handle_webhook 100
        (.ok ⟨some "evt_1", "customer.subscription.deleted",
          ⟨some "a@b.co", none, some "basic", some "cus_1", some "sub_1", "sub_1"⟩⟩)
        (Billing._mark_webhook_event_processed 100 [] 0 "evt_1") 30 =
      (.statusResult "ignored" "customer.subscription.deleted" (some "duplicate_event"),
        Billing._mark_webhook_event_processed 100 [] 0 "evt_1", [])) :=
  webhook_dedup_exactly_once 100 0 30 [] "evt_1"
    ⟨some "a@b.co", none, some "basic", some "cus_1", some "sub_1", "sub_1"⟩
    "a@b.co" "basic" (by decide) rfl (by decide) rfl (by decide) rfl (by decide)

/-- C3: two checkout-session creations with the same non-empty idempotency
key within the TTL return the identical URL with the payment provider
invoked only once across the two calls; with an absent key the idempotency
cache is neither read nor written and every call contacts the provider. -/
theorem checkout_idempotency
    (ttl now1 now2 now3 : ℕ) (cfg : Billing.PlansConfig) (provider : ℕ → String)
    (st0 st : Billing.CheckoutState)
    (email plan success_url cancel_url k pid : String)
    (hplan : Billing.plan_stripe_price_id cfg plan = some (some pid))
    (hpid : pid ≠ "") (hfree : plan ≠ "free") (hk : k ≠ "")
    (hfresh : st0.cache.lookup (Billing.checkoutCacheKey k) = none)
    (hurl : provider st0.providerCalls ≠ "")
    (hts : now2 ≤ now1 + ttl) :
    (∃ st1 st2,
      Billing.create_checkout_session ttl cfg provider st0 now1 email plan
        success_url cancel_url (some k) = .ok (provider st0.providerCalls, st1) ∧
      Billing.create_checkout_session ttl cfg provider st1 now2 email plan
        success_url cancel_url (some k) = .ok (provider st0.providerCalls, st2) ∧
      st2.providerCalls = st0.providerCalls + 1) ∧
    Billing.create_checkout_session ttl cfg provider st now3 email plan
      success_url cancel_url none =
      .ok (provider st.providerCalls, { st with providerCalls := st.providerCalls + 1 }) := by
  constructor
  · have hnot : ¬ (now2 > now1 + ttl) := not_lt.mpr hts
    refine ⟨Billing._cache_checkout ttl
        { st0 with cacheReads := st0.cacheReads + 1,
                   providerCalls := st0.providerCalls + 1 } now1 k
        (provider st0.providerCalls), ?_, ?_, ?_, ?_⟩
    · exact { (Billing._cache_checkout ttl
        { st0 with cacheReads := st0.cacheReads + 1,
                   providerCalls := st0.providerCalls + 1 } now1 k
        (provider st0.providerCalls)) with
          cacheReads := st0.cacheReads + 2 }
    · simp [Billing.create_checkout_session, hplan, hfree, pyTruthy, hpid, hk,
        Billing._get_cached_checkout, hfresh]
    · simp [Billing.create_checkout_session, hplan, hfree, pyTruthy, hpid, hk,
        Billing._get_cached_checkout, Billing._cache_checkout, List.lookup, hnot, hurl]
    · simp [Billing._cache_checkout]
  · exact create_checkout_none_key ttl cfg provider st now3 email plan
      success_url cancel_url pid hplan hpid hfree

/-- Witness for C3: concrete repeated checkout calls with key `"idem-1"`
against an empty cache, and a keyless call. -/
theorem checkout_idempotency_witness :
    (∃ st1 st2,
      Billing.create_checkout_session 10 ⟨some "price_basic", none, none⟩
        (fun _ => "https://checkout.stripe.com/mock") ⟨[], 0, 0⟩ 0 "a@b.co" "basic"
        "https://ok" "https://cancel" (some "idem-1") =
        .ok ("https://checkout.stripe.com/mock", st1) ∧
      Billing.create_checkout_session 10 ⟨some "price_basic", none, none⟩
        (fun _ => "https://checkout.stripe.com/mock") st1 5 "a@b.co" "basic"
        "https://ok" "https://cancel" (some "idem-1") =
        .ok ("https://checkout.stripe.com/mock", st2) ∧
      st2.providerCalls = 0 + 1) ∧
    Billing.create_checkout_session 10 ⟨some "price_basic", none, none⟩
      (fun _ => "https://checkout.stripe.com/mock") ⟨[], 4, 7⟩ 0 "a@b.co" "basic"
      "https://ok" "https://cancel" none =
      .ok ("https://checkout.stripe.com/mock", (⟨[], 5, 7⟩ : Billing.CheckoutState)) :=
  checkout_idempotency 10 0 5 0 ⟨some "price_basic", none, none⟩
    (fun _ => "https://checkout.stripe.com/mock") ⟨[], 0, 0⟩ ⟨[], 4, 7⟩
    "a@b.co" "basic" "https://ok" "https://cancel" "idem-1" "price_basic"
    rfl (by decide) (by decide) (by decide) rfl (by decide) (by decide)

/-- C9: the HTTP checkout endpoint calls `create_checkout_session` with no
idempotency key, so for every pair of identical checkout requests the
idempotency cache is never consulted or written (the state changes only in
the provider-call counter) and the payment provider is contacted once per
request. -/
theorem checkout_endpoint_no_idempotency
    (ttl now1 now2 : ℕ) (cfg : Billing.PlansConfig) (provider : ℕ → String)
    (st0 : Billing.CheckoutState) (email plan base_url pid : String)
    (hplan : plan ∈ (["basic", "pro", "ultra"] : List String))
    (hprice : Billing.plan_stripe_price_id cfg plan = some (some pid))
    (hpid : pid ≠ "") :
    Main.checkout_endpoint ttl cfg provider st0 now1 email plan base_url =
      (.checkoutUrl (provider st0.providerCalls),
        { st0 with providerCalls := st0.providerCalls + 1 }) ∧
    Main.checkout_endpoint ttl cfg provider
        { st0 with providerCalls := st0.providerCalls + 1 } now2 email plan base_url =
      (.checkoutUrl (provider (st0.providerCalls + 1)),
        { st0 with providerCalls := st0.providerCalls + 1 + 1 }) := by
  have hfree : plan ≠ "free" := by
    have h' : plan = "basic" ∨ plan = "pro" ∨ plan = "ultra" := by simpa using hplan
    rcases h' with rfl | rfl | rfl <;> decide
  have h1 := create_checkout_none_key ttl cfg provider st0 now1 email plan
    (base_url ++ "/checkout/success") (base_url ++ "/checkout/cancel") pid hprice hpid hfree
  have h2 := create_checkout_none_key ttl cfg provider
    { st0 with providerCalls := st0.providerCalls + 1 } now2 email plan
    (base_url ++ "/checkout/success") (base_url ++ "/checkout/cancel") pid hprice hpid hfree
  constructor
  · simp [Main.checkout_endpoint, hplan, h1]
  · simp only [Main.checkout_endpoint, h2]
    simp [hplan]

/-- Witness for C9: two identical concrete checkout requests for plan
`"basic"` against a state whose cache holds an unrelated entry; only the
provider-call counter changes. -/
theorem checkout_endpoint_no_idempotency_witness :
    Main.checkout_endpoint 10 ⟨some "price_basic", none, none⟩
      (fun _ => "https://checkout.stripe.com/mock")
      ⟨[("idempotency:checkout:other", ⟨"https://old", 99⟩)], 0, 0⟩ 0
      "a@b.co" "basic" "https://base" =
      (.checkoutUrl "https://checkout.stripe.com/mock",
        ⟨[("idempotency:checkout:other", ⟨"https://old", 99⟩)], 1, 0⟩) ∧
    Main.checkout_endpoint 10 ⟨some "price_basic", none, none⟩
      (fun _ => "https://checkout.stripe.com/mock")
      ⟨[("idempotency:checkout:other", ⟨"https://old", 99⟩)], 1, 0⟩ 5
      "a@b.co" "basic" "https://base" =
      (.checkoutUrl "https://checkout.stripe.com/mock",
        ⟨[("idempotency:checkout:other", ⟨"https://old", 99⟩)], 2, 0⟩) :=
  checkout_endpoint_no_idempotency 10 0 5 ⟨some "price_basic", none, none⟩
    (fun _ => "https://checkout.stripe.com/mock")
    ⟨[("idempotency:checkout:other", ⟨"https://old", 99⟩)], 0, 0⟩
    "a@b.co" "basic" "https://base" "price_basic" (by decide) rfl (by decide)

/-- C10: if enriching an item raises, the batch endpoint substitutes a
failure response (`success = false`, confidence 0, empty sources) for that
item instead of failing the batch; the response satisfies
`total = |results| = successful + failed` with `successful` counting the
successful items; and usage is incremented once per item when a truthy
(present, non-empty) API key accompanies the request, regardless of
per-item failures. -/
theorem batch_error_isolation {ε : Type} (outcomes : ℕ → Except ε Main.EnrichmentResponse)
    (x_api_key : Option String) (items : List Main.EnrichmentRequest)
    (i : ℕ) (item : Main.EnrichmentRequest) (e : ε) :
    (items.get? i = some item → outcomes i = .error e →
      ((Main.batch_enrich_endpoint outcomes x_api_key items).1.results).get? i =
        some { success := false
               data_type := item.data_type
               original_input := item.raw_data
               company := none
               address := none
               person := none
               domain_info := none
               confidence_score := 0
               sources := [] }) ∧
    ((Main.batch_enrich_endpoint outcomes x_api_key items).1.total =
      ((Main.batch_enrich_endpoint outcomes x_api_key items).1.results).length ∧
    (Main.batch_enrich_endpoint outcomes x_api_key items).1.total =
      (Main.batch_enrich_endpoint outcomes x_api_key items).1.successful +
        (Main.batch_enrich_endpoint outcomes x_api_key items).1.failed ∧
    (Main.batch_enrich_endpoint outcomes x_api_key items).1.successful =
      (((Main.batch_enrich_endpoint outcomes x_api_key items).1.results).filter
        (fun r => r.success)).length) ∧
    (pyTruthy x_api_key = true →
      (Main.batch_enrich_endpoint outcomes x_api_key items).2 = items.length) := by
  refine ⟨?_, ⟨?_, ?_, ?_⟩, ?_⟩
  · intro hitem herr
    simp only [Main.batch_enrich_endpoint]
    rw [batch_results_get? outcomes items 0 i]
    simp [hitem, Main.process_item, herr]
    exact ⟨item, by simpa using hitem, rfl, rfl⟩
  · simp [Main.batch_enrich_endpoint]
  · have hle : ((Main.batch_results outcomes 0 items).filter (fun r => r.success)).length ≤
        (Main.batch_results outcomes 0 items).length := List.length_filter_le _ _
    simp only [Main.batch_enrich_endpoint]
    omega
  · simp [Main.batch_enrich_endpoint]
  · intro h
    simp [Main.batch_enrich_endpoint, h]

/-- Witness for C10: a concrete two-item batch whose first item raises; the
failure placeholder appears at position 0, the counts add up, and usage is
incremented twice for the keyed request. -/
theorem batch_error_isolation_witness :
    ((Main.batch_enrich_endpoint batchOracle (some "enrich_k1")
        [⟨"Stripe", "company"⟩, ⟨"Patrick Collison", "person"⟩]).1.results).get? 0 =
      some { success := false
             data_type := "company"
             original_input := "Stripe"
             company := none
             address := none
             person := none
             domain_info := none
             confidence_score := 0
             sources := [] } ∧
    (Main.batch_enrich_endpoint batchOracle (some "enrich_k1")
        [⟨"Stripe", "company"⟩, ⟨"Patrick Collison", "person"⟩]).1.total =
      (Main.batch_enrich_endpoint batchOracle (some "enrich_k1")
        [⟨"Stripe", "company"⟩, ⟨"Patrick Collison", "person"⟩]).1.successful +
        (Main.batch_enrich_endpoint batchOracle (some "enrich_k1")
          [⟨"Stripe", "company"⟩, ⟨"Patrick Collison", "person"⟩]).1.failed ∧
    (Main.batch_enrich_endpoint batchOracle (some "enrich_k1")
        [⟨"Stripe", "company"⟩, ⟨"Patrick Collison", "person"⟩]).2 = 2 :=
  ⟨(batch_error_isolation batchOracle (some "enrich_k1")
      [⟨"Stripe", "company"⟩, ⟨"Patrick Collison", "person"⟩] 0 ⟨"Stripe", "company"⟩ ()).1
      rfl rfl,
    (batch_error_isolation batchOracle (some "enrich_k1")
      [⟨"Stripe", "company"⟩, ⟨"Patrick Collison", "person"⟩] 0 ⟨"Stripe", "company"⟩ ()).2.1.2.1,
    (batch_error_isolation batchOracle (some "enrich_k1")
      [⟨"Stripe", "company"⟩, ⟨"Patrick Collison", "person"⟩] 0 ⟨"Stripe", "company"⟩ ()).2.2
      (by decide)⟩
